import Mathlib

/-!
# Verification of `anymail/backends/base.py` (django-anymail)

A shallow embedding of the Anymail base email backend: the batch sender
(`send_messages`), the per-message send orchestrator (`_send`), the
recipient-status escalation (`raise_for_recipient_status`), the post-send
signal loop (`run_post_send`), the payload attribute merge pipeline
(`BasePayload.__init__` with the `last`/`combine` combiners), the
unsupported-feature escalation, and the `aware_datetime` converter.

Python exceptions are modelled as an `Exc` inductive and fallible code
returns `Except Exc _`; the observable side effects the spec talks about
(which collaborator methods were called, the status attached to a message,
how many times `close` ran) are recorded in explicit outcome structures.
-/

namespace Anymail

/-- The exception taxonomy. `anymail/exceptions.py` is not under `src/`;
modelled from the spec: "Unsupported-feature, transport, parse, and
all-refused errors all descend from one common taxonomy root
(`AnymailError`) so fail-silent mode can catch them uniformly"; other
(programming) errors are outside that root. `AnymailCancelSend` is caught
inside the pre-send hook and never escapes it. -/
inductive Exc where
  | unsupportedFeature (message : String)
  | recipientsRefused
  | apiError (tag : Nat)
  | otherAnymailError (tag : Nat)
  | cancelSend
  | nonAnymailError (tag : Nat)
deriving DecidableEq, Repr

/-- Modelled from the spec: which exceptions descend from the
anticipated-failure taxonomy root `AnymailError` (`except AnymailError`
in `send_messages` matches exactly these). -/
def Exc.isAnymailError : Exc → Bool
  | .nonAnymailError _ => false
  | _ => true

instance {ε α : Type} [DecidableEq ε] [DecidableEq α] : DecidableEq (Except ε α)
  | .error a, .error b =>
    if h : a = b then isTrue (by rw [h]) else isFalse (by simp [h])
  | .error _, .ok _ => isFalse (by simp)
  | .ok _, .error _ => isFalse (by simp)
  | .ok a, .ok b =>
    if h : a = b then isTrue (by rw [h]) else isFalse (by simp [h])

/-- Raw ESP response, opaque to this core. -/
abbrev Response := Nat

/-- Provider-specific payload, opaque at the orchestrator level
(`build_message_payload` is abstract in the base backend). -/
abbrev Payload := Nat

/-- Modelled from the spec: the Aggregate Status object
(`anymail.message.AnymailStatus`, not under `src/`): "the set of distinct
per-recipient statuses observed for a message, plus the raw provider
response". `_send` sets `esp_response` after the transport call and
`recipient_status` via `set_recipient_status` after parsing. -/
structure AnymailStatus where
  esp_response : Option Response := none
  recipient_status : Option (List (String × String)) := none
deriving DecidableEq, Repr

/-- Modelled from the spec: `AnymailStatus.status`, the set of distinct
per-recipient status words (represented as a deduplicated list). -/
def AnymailStatus.statusSet (s : AnymailStatus) : List String :=
  ((s.recipient_status.getD []).map Prod.snd).dedup

/-- Backend configuration relevant to the embedded code
(`AnymailBaseBackend.__init__` / Django's `BaseEmailBackend`):
the two ignore settings, `fail_silently`, and what this backend's
`open()` reports (`True` iff it created a new cached connection). -/
structure Backend where
  ignore_unsupported_features : Bool := false
  ignore_recipient_status : Bool := false
  fail_silently : Bool := false
  openCreatesSession : Bool := false
deriving DecidableEq, Repr

/-- `AnymailBaseBackend.raise_for_recipient_status`: raises
`AnymailRecipientsRefused` when `ignore_recipient_status` is unset and the
aggregate status set is a subset of `{"invalid", "rejected"}`.
Returns `some exc` for "raises exc", `none` for a normal return. -/
def raise_for_recipient_status (ignore_recipient_status : Bool)
    (anymail_status : AnymailStatus) : Option Exc :=
  if !ignore_recipient_status then
    if anymail_status.statusSet.all (fun s => s = "invalid" || s = "rejected") then
      some .recipientsRefused
    else none
  else none

/-- Modelled from the spec: Django's `post_send.send_robust` (external
extension point): invokes every registered observer, catching anything an
observer raises, and returns the list of `(receiver, response)` results in
registration order. Each observer is represented by the outcome its call
produces. -/
def send_robust (observers : List (Except Exc Unit)) : List (Option Exc) :=
  observers.map (fun r => match r with | .ok _ => none | .error e => some e)

/-- `AnymailBaseBackend.run_post_send`: send the post-send signal to all
receivers via `send_robust`, then raise the first `Exception` found among
the collected responses (`none` when no observer raised). -/
def run_post_send (observers : List (Except Exc Unit)) : Option Exc :=
  (send_robust observers).findSome? id

/-- The per-message environment `_send` runs against: the behavior of the
collaborators the base class leaves abstract or external. `preSendCancels`
is whether the pre-send signal raises `AnymailCancelSend`; `recipients` is
`message.recipients()`; `buildPayload`, `postToEsp`, `parseStatus` are the
outcomes of the three abstract provider methods; `postSendObservers` are
the registered post-send observers' outcomes. -/
structure SendEnv where
  preSendCancels : Bool
  recipients : List String
  buildPayload : Except Exc Payload
  postToEsp : Except Exc Response
  parseStatus : Except Exc (List (String × String))
  postSendObservers : List (Except Exc Unit)

/-- Observable outcome of one `_send` call: the return value or the
exception raised, the `anymail_status` attached to the message, whether
`build_message_payload` and `post_to_esp` were invoked, and how many
post-send observers ran. -/
structure SendOutcome where
  result : Except Exc Bool
  anymail_status : AnymailStatus
  calledBuildPayload : Bool
  calledPostToEsp : Bool
  postSendObserversRun : Nat
deriving DecidableEq, Repr

/-- `AnymailBaseBackend._send`, step by step per the source:
fresh `AnymailStatus`; return `False` if the pre-send hook cancels;
return `False` if there are no recipients; build the payload; post to the
ESP and record the response; parse the recipient status and record it;
run the post-send signal; raise for recipient status; return `True`.
Any exception from a collaborator propagates from the point it occurs. -/
def sendOne (b : Backend) (env : SendEnv) : SendOutcome :=
  let st0 : AnymailStatus := {}
  if env.preSendCancels then
    ⟨.ok false, st0, false, false, 0⟩
  else if env.recipients.isEmpty then
    ⟨.ok false, st0, false, false, 0⟩
  else
    match env.buildPayload with
    | .error e => ⟨.error e, st0, true, false, 0⟩
    | .ok _payload =>
      match env.postToEsp with
      | .error e => ⟨.error e, st0, true, true, 0⟩
      | .ok response =>
        let st1 : AnymailStatus := { st0 with esp_response := some response }
        match env.parseStatus with
        | .error e => ⟨.error e, st1, true, true, 0⟩
        | .ok rs =>
          let st2 : AnymailStatus := { st1 with recipient_status := some rs }
          let nObs := (send_robust env.postSendObservers).length
          match run_post_send env.postSendObservers with
          | some e => ⟨.error e, st2, true, true, nObs⟩
          | none =>
            match raise_for_recipient_status b.ignore_recipient_status st2 with
            | some e => ⟨.error e, st2, true, true, nObs⟩
            | none => ⟨.ok true, st2, true, true, nObs⟩

/-- The `for message in email_messages` loop body of `send_messages`:
`_send` each message; `except AnymailError:` count it unsent and continue
when `fail_silently`, re-raise otherwise; any other exception propagates
unconditionally. Returns the final `num_sent` or the propagated
exception. -/
def sendLoop (b : Backend) : List SendEnv → Nat → Except Exc Nat
  | [], num_sent => .ok num_sent
  | env :: rest, num_sent =>
    match (sendOne b env).result with
    | .ok sent => sendLoop b rest (if sent then num_sent + 1 else num_sent)
    | .error e =>
      if e.isAnymailError then
        if b.fail_silently then sendLoop b rest num_sent
        else .error e
      else .error e

/-- Observable outcome of one `send_messages` call: the count returned or
the exception propagated, whether `open()` was called, and how many times
`close()` was called. -/
structure BatchOutcome where
  result : Except Exc Nat
  openCalled : Bool
  closeCalls : Nat
deriving DecidableEq, Repr

/-- `AnymailBaseBackend.send_messages`: early return 0 on an empty batch
(no `open`), otherwise `created_session = self.open()`, run the message
loop inside `try`, and in `finally` call `close()` iff `created_session`
— on every exit path, normal or exceptional. -/
def send_messages (b : Backend) (envs : List SendEnv) : BatchOutcome :=
  if envs.isEmpty then
    ⟨.ok 0, false, 0⟩
  else
    let created_session := b.openCreatesSession
    ⟨sendLoop b envs 0, true, if created_session then 1 else 0⟩

/-!
## Payload builder: attribute merge rules (`BasePayload.__init__`)
-/

/-- A Python value as the attribute pipeline sees it: strings, integers,
sequences, and string-keyed mappings (a mapping is an insertion-ordered
association list, first binding of a key wins on lookup, as in a Python
`dict` where each key occurs once). -/
inductive PyValue where
  | str (s : String)
  | int (n : Int)
  | list (xs : List PyValue)
  | dict (kvs : List (String × PyValue))

/-- `dict.get`-style lookup: first binding of key `k`. -/
def dictGet (k : String) : List (String × PyValue) → Option PyValue
  | [] => none
  | p :: rest => if p.1 = k then some p.2 else dictGet k rest

/-- Python `dict.update` on association lists (`merged.update(value)` in
`combine`): keys of the base keep their position with the updating value
when overridden; keys only in the update are appended in their order. -/
def dictUpdate (ds vs : List (String × PyValue)) : List (String × PyValue) :=
  ds.map (fun p =>
    match dictGet p.1 vs with
    | some v => (p.1, v)
    | none => p) ++
  vs.filter (fun q => !(ds.any (fun p => p.1 = q.1)))

/-- Modelled from the spec: the merge step of `anymail.utils.combine`
(not under `src/`) when both sides are present — "list concatenation for
sequences, key union with caller precedence for mappings". On
non-collection values the caller value wins. -/
def mergeValues : PyValue → PyValue → PyValue
  | .list ds, .list vs => .list (ds ++ vs)
  | .dict ds, .dict vs => .dict (dictUpdate ds vs)
  | _, v => v

/-- Modelled from the spec: `anymail.utils.combine` (not under `src/`) —
"*merge* only fires when both sides are present, otherwise the present
side wins". `none` is the `UNSET` sentinel. -/
def combine (default_value value : Option PyValue) : Option PyValue :=
  match default_value, value with
  | none, v => v
  | some d, none => some d
  | some d, some v => some (mergeValues d v)

/-- Modelled from the spec: `anymail.utils.last` (not under `src/`) —
the *override* combiner: "caller value wins if present, else default". -/
def last (default_value value : Option PyValue) : Option PyValue :=
  match value with
  | some v => some v
  | none => default_value

/-- Apply an optional converter (`converter` entries may be `None`). -/
def applyConverter (converter : Option (PyValue → PyValue)) (v : PyValue) : PyValue :=
  match converter with
  | some conv => conv v
  | none => v

/-- The body of `BasePayload.__init__`'s per-attribute loop for one merge
rule `(attr, combiner, converter)`: read the message value (`UNSET` when
absent), combine with the default when a combiner is declared, convert
when still set, and return the value handed to the `set_<attr>` setter —
`none` means the setter is never invoked. -/
def processAttr (combiner : Option (Option PyValue → Option PyValue → Option PyValue))
    (converter : Option (PyValue → PyValue))
    (default_value messageValue : Option PyValue) : Option PyValue :=
  let value := messageValue
  let value :=
    match combiner with
    | some c => c default_value value
    | none => value
  match value with
  | none => none
  | some v => some (applyConverter converter v)

/-!
## Unsupported-feature escalation
-/

/-- `BasePayload.unsupported_feature`: raises `AnymailUnsupportedFeature`
("%s does not support %s") unless the backend's
`ignore_unsupported_features` setting is set, in which case it is a
no-op. -/
def unsupported_feature (ignore_unsupported_features : Bool)
    (esp_name feature : String) : Option Exc :=
  if !ignore_unsupported_features then
    some (.unsupportedFeature (esp_name ++ " does not support " ++ feature))
  else none

/-- `BasePayload.set_tags` default implementation: providers that do not
override it escalate via `unsupported_feature("tags")`; the tags value
itself is dropped. -/
def set_tags (ignore_unsupported_features : Bool) (esp_name : String)
    (_tags : List PyValue) : Option Exc :=
  unsupported_feature ignore_unsupported_features esp_name "tags"

/-!
## The `aware_datetime` converter
-/

/-- A Python `datetime`: calendar/clock fields plus `tzinfo`, modelled as
an optional fixed UTC offset in minutes (`none` = naive; Django's
`is_naive` tests exactly this, and `utc` is offset `0`). -/
structure PyDatetime where
  year : Int
  month : Nat
  day : Nat
  hour : Nat
  minute : Nat
  second : Nat
  tzinfo : Option Int
deriving DecidableEq, Repr

/-- Django `django.utils.timezone.is_naive`. -/
def is_naive (dt : PyDatetime) : Bool := dt.tzinfo.isNone

/-- Django `django.utils.timezone.make_aware` for a fixed-offset zone:
attaches the zone to the naive wall-clock fields. -/
def make_aware (dt : PyDatetime) (tz : Int) : PyDatetime :=
  { dt with tzinfo := some tz }

/-- Civil date from a day count relative to 1970-01-01
(the standard days-to-civil conversion used by `utcfromtimestamp`). -/
def civilFromDays (z0 : Int) : Int × Nat × Nat :=
  let z := z0 + 719468
  let era : Int := z.fdiv 146097
  let doe : Nat := (z - era * 146097).toNat
  let yoe : Nat := (doe - doe / 1460 + doe / 36524 - doe / 146096) / 365
  let y : Int := (yoe : Int) + era * 400
  let doy : Nat := doe - (365 * yoe + yoe / 4 - yoe / 100)
  let mp : Nat := (5 * doy + 2) / 153
  let d : Nat := doy - (153 * mp + 2) / 5 + 1
  let m : Nat := if mp < 10 then mp + 3 else mp - 9
  (if m ≤ 2 then y + 1 else y, m, d)

/-- Python `datetime.utcfromtimestamp`: POSIX timestamp to a naive
datetime in UTC. -/
def utcfromtimestamp (t : Int) : PyDatetime :=
  let days := t.fdiv 86400
  let secs := (t - days * 86400).toNat
  let c := civilFromDays days
  { year := c.1, month := c.2.1, day := c.2.2,
    hour := secs / 3600, minute := secs % 3600 / 60, second := secs % 60,
    tzinfo := none }

/-- Input domain of `aware_datetime`: a `datetime`, a `date`, an integer
POSIX timestamp, or an unrecognized value (e.g. a `str`), which the
converter returns unchanged. -/
inductive DTValue where
  | datetime (dt : PyDatetime)
  | date (y : Int) (m d : Nat)
  | timestamp (t : Int)
  | other (s : String)
deriving DecidableEq, Repr

/-- `BasePayload.aware_datetime`: a `datetime` is used as is; a `date`
becomes a naive midnight `datetime`; anything else is tried as a POSIX
timestamp via `utcfromtimestamp(...).replace(tzinfo=utc)` and returned
unchanged on `TypeError`/`ValueError`; finally a naive result is made
aware in Django's current timezone (`currentTz`, a fixed offset in
minutes). -/
def aware_datetime (currentTz : Int) (value : DTValue) : DTValue :=
  match value with
  | .datetime dt =>
    .datetime (if is_naive dt then make_aware dt currentTz else dt)
  | .date y m d =>
    let dt : PyDatetime :=
      { year := y, month := m, day := d, hour := 0, minute := 0, second := 0,
        tzinfo := none }
    .datetime (if is_naive dt then make_aware dt currentTz else dt)
  | .timestamp t =>
    let dt : PyDatetime := { utcfromtimestamp t with tzinfo := some 0 }
    .datetime (if is_naive dt then make_aware dt currentTz else dt)
  | .other s => .other s

/-!
## Concrete send environments (used to instantiate the theorems)
-/

/-- A message with no recipients whose pre-send hook does not cancel. -/
def envZeroRecipients : SendEnv :=
  { preSendCancels := false, recipients := [], buildPayload := .ok 0,
    postToEsp := .ok 0, parseStatus := .ok [], postSendObservers := [] }

/-- A send whose parsed statuses are all `invalid`/`rejected`. -/
def envAllRefused : SendEnv :=
  { preSendCancels := false, recipients := ["a@example.com", "b@example.com"],
    buildPayload := .ok 0, postToEsp := .ok 7,
    parseStatus := .ok [("a@example.com", "invalid"), ("b@example.com", "rejected")],
    postSendObservers := [] }

/-- A send where the first post-send observer raises a non-Anymail error
and a second observer is also registered. -/
def envObserverRaises : SendEnv :=
  { preSendCancels := false, recipients := ["a@example.com"],
    buildPayload := .ok 0, postToEsp := .ok 7,
    parseStatus := .ok [("a@example.com", "rejected")],
    postSendObservers := [.error (.nonAnymailError 7), .ok ()] }

/-- A send whose parser returns an empty per-recipient status mapping. -/
def envEmptyStatus : SendEnv :=
  { preSendCancels := false, recipients := ["a@example.com"],
    buildPayload := .ok 0, postToEsp := .ok 7, parseStatus := .ok [],
    postSendObservers := [] }

/-- A send where building the payload raises an `AnymailError`
(an unsupported feature). -/
def envBuildFails : SendEnv :=
  { preSendCancels := false, recipients := ["a@example.com"],
    buildPayload := .error (.unsupportedFeature "Example does not support tags"),
    postToEsp := .ok 7, parseStatus := .ok [("a@example.com", "sent")],
    postSendObservers := [] }

/-- A send where a collaborator raises an error outside the `AnymailError`
taxonomy (a programming error). -/
def envNonAnymailFails : SendEnv :=
  { preSendCancels := false, recipients := ["a@example.com"],
    buildPayload := .error (.nonAnymailError 3),
    postToEsp := .ok 7, parseStatus := .ok [("a@example.com", "sent")],
    postSendObservers := [] }

/-- A send that succeeds with a `sent` status. -/
def envSentOk : SendEnv :=
  { preSendCancels := false, recipients := ["a@example.com"],
    buildPayload := .ok 0, postToEsp := .ok 7,
    parseStatus := .ok [("a@example.com", "sent")], postSendObservers := [] }

/-!
## Theorems
-/

/-- C4: for every message with zero resolved recipients whose pre-send
hook does not cancel, `_send` returns `False` (not sent), raises no
error, builds no payload, and never invokes `post_to_esp`. -/
theorem send_zero_recipients_not_sent (b : Backend) (env : SendEnv)
    (hpre : env.preSendCancels = false) (hrec : env.recipients = []) :
    (sendOne b env).result = .ok false ∧
    (sendOne b env).calledBuildPayload = false ∧
    (sendOne b env).calledPostToEsp = false := by
  simp [sendOne, hpre, hrec]

/-- Witness for C4 at a concrete zero-recipient message. -/
theorem send_zero_recipients_not_sent_witness :
    (sendOne {} envZeroRecipients).result = .ok false ∧
    (sendOne {} envZeroRecipients).calledBuildPayload = false ∧
    (sendOne {} envZeroRecipients).calledPostToEsp = false :=
  send_zero_recipients_not_sent {} envZeroRecipients rfl rfl

/-- C7: `unsupported_feature` raises `AnymailUnsupportedFeature` when
`ignore_unsupported_features` is unset and is a silent no-op when it is
set; in particular the default `set_tags` (a provider without tag
support) drops the tags without error in permissive mode. -/
theorem unsupported_feature_escalates_unless_ignored
    (esp feature : String) (tags : List PyValue) :
    unsupported_feature false esp feature =
      some (.unsupportedFeature (esp ++ " does not support " ++ feature)) ∧
    unsupported_feature true esp feature = none ∧
    set_tags true esp tags = none ∧
    set_tags false esp tags =
      some (.unsupportedFeature (esp ++ " does not support " ++ "tags")) :=
  ⟨rfl, rfl, rfl, rfl⟩

/-- C9: `aware_datetime` is idempotent on every input, returns an already
zone-aware datetime unchanged, and passes any unrecognized input through
unchanged. -/
theorem aware_datetime_idempotent (tz : Int) (x : DTValue) :
    aware_datetime tz (aware_datetime tz x) = aware_datetime tz x ∧
    (∀ y mo d h mi s z,
      aware_datetime tz (.datetime ⟨y, mo, d, h, mi, s, some z⟩) =
        .datetime ⟨y, mo, d, h, mi, s, some z⟩) ∧
    (∀ s, aware_datetime tz (.other s) = .other s) := by
  refine ⟨?_, fun y mo d h mi s z => by simp [aware_datetime, is_naive], fun s => rfl⟩
  cases x with
  | datetime dt =>
    cases h : dt.tzinfo <;>
      simp [aware_datetime, is_naive, make_aware, h]
  | date y m d => simp [aware_datetime, is_naive, make_aware]
  | timestamp t => simp [aware_datetime, is_naive, make_aware]
  | other s => rfl

/-- C5: for an *override* (`last`) rule, a present caller value reaches
the setter (converted); an absent caller value with a present default
sends the converted default; and when both are absent the setter is never
invoked. -/
theorem override_rule_spec (converter : Option (PyValue → PyValue))
    (d v : PyValue) (default_value : Option PyValue) :
    processAttr (some last) converter default_value (some v) =
      some (applyConverter converter v) ∧
    processAttr (some last) converter (some d) none =
      some (applyConverter converter d) ∧
    processAttr (some last) converter none none = none :=
  ⟨rfl, rfl, rfl⟩

/-- Helper: a nonempty recipients list makes `isEmpty` false. -/
theorem recipients_isEmpty_false {l : List String} (h : l ≠ []) :
    l.isEmpty = false := by
  cases l with
  | nil => exact absurd rfl h
  | cons a t => rfl

/-- Helper: the aggregate status set of parsed statuses that are all
`invalid`/`rejected` passes the `issubset` check of
`raise_for_recipient_status`. -/
theorem statusSet_all_refused (resp : Response) (rs : List (String × String))
    (hall : ∀ pr ∈ rs, pr.2 = "invalid" ∨ pr.2 = "rejected") :
    (AnymailStatus.statusSet ⟨some resp, some rs⟩).all
      (fun s => s = "invalid" || s = "rejected") = true := by
  rw [List.all_eq_true]
  intro x hx
  simp only [AnymailStatus.statusSet, Option.getD_some, List.mem_dedup] at hx
  obtain ⟨pr, hpr, hx⟩ := List.mem_map.mp hx
  rcases hall pr hpr with h | h <;> simp [← hx, h]

/-- C1: when a send reaches the parsed state with every per-recipient
status in `{invalid, rejected}` and no post-send observer raises, `_send`
raises `AnymailRecipientsRefused` if `ignore_recipient_status` is unset,
and returns `True` with the aggregate status (response and per-recipient
statuses) attached to the message if it is set. -/
theorem all_refused_raises_unless_ignored (b : Backend) (env : SendEnv)
    (p : Payload) (resp : Response) (rs : List (String × String))
    (hpre : env.preSendCancels = false) (hrec : env.recipients ≠ [])
    (hbuild : env.buildPayload = .ok p) (hpost : env.postToEsp = .ok resp)
    (hparse : env.parseStatus = .ok rs)
    (hobs : run_post_send env.postSendObservers = none)
    (hall : ∀ pr ∈ rs, pr.2 = "invalid" ∨ pr.2 = "rejected") :
    (b.ignore_recipient_status = false →
      (sendOne b env).result = .error .recipientsRefused) ∧
    (b.ignore_recipient_status = true →
      (sendOne b env).result = .ok true ∧
      (sendOne b env).anymail_status.esp_response = some resp ∧
      (sendOne b env).anymail_status.recipient_status = some rs) := by
  have hre := recipients_isEmpty_false hrec
  have hsub := statusSet_all_refused resp rs hall
  constructor <;> intro hign <;>
    simp [sendOne, hpre, hre, hbuild, hpost, hparse, hobs,
          raise_for_recipient_status, hign, hsub]

/-- Witness for C1 at a concrete all-refused send, with the ignore
setting unset. -/
theorem all_refused_raises_unless_ignored_witness :
    (sendOne {} envAllRefused).result = .error .recipientsRefused := by
  have h := all_refused_raises_unless_ignored {} envAllRefused 0 7
    [("a@example.com", "invalid"), ("b@example.com", "rejected")]
    rfl (by decide) rfl rfl rfl rfl (by decide)
  exact h.1 rfl

/-- C8: when a post-send observer raises, `_send` raises that error —
the post-send point runs before (and its error preempts) the
all-recipients-refused check, for any parsed statuses and any setting —
and every registered observer still runs (`send_robust` collects one
outcome per observer rather than short-circuiting). -/
theorem post_send_error_reraised_after_all_observers (b : Backend)
    (env : SendEnv) (p : Payload) (resp : Response)
    (rs : List (String × String)) (e : Exc)
    (hpre : env.preSendCancels = false) (hrec : env.recipients ≠ [])
    (hbuild : env.buildPayload = .ok p) (hpost : env.postToEsp = .ok resp)
    (hparse : env.parseStatus = .ok rs)
    (hraise : run_post_send env.postSendObservers = some e) :
    (sendOne b env).result = .error e ∧
    (sendOne b env).postSendObserversRun = env.postSendObservers.length ∧
    (send_robust env.postSendObservers).length =
      env.postSendObservers.length := by
  have hre := recipients_isEmpty_false hrec
  refine ⟨?_, ?_, ?_⟩ <;>
    simp [sendOne, hpre, hre, hbuild, hpost, hparse, hraise, send_robust]

/-- Witness for C8: a first observer raises a non-Anymail error while a
second observer is registered; the error is re-raised and both observers
ran, preempting the refused check that would otherwise fire. -/
theorem post_send_error_reraised_after_all_observers_witness :
    (sendOne {} envObserverRaises).result = .error (.nonAnymailError 7) ∧
    (sendOne {} envObserverRaises).postSendObserversRun = 2 ∧
    (send_robust envObserverRaises.postSendObservers).length = 2 :=
  post_send_error_reraised_after_all_observers {} envObserverRaises 0 7
    [("a@example.com", "rejected")] (.nonAnymailError 7)
    rfl (by decide) rfl rfl rfl rfl

/-- C10: an empty parsed per-recipient status mapping still trips the
all-recipients-refused check when `ignore_recipient_status` is unset —
the empty status set is (vacuously) a subset of `{invalid, rejected}` —
so `raise_for_recipient_status` raises and `_send` errors. -/
theorem empty_status_raises_refused (b : Backend) (env : SendEnv)
    (p : Payload) (resp : Response)
    (hign : b.ignore_recipient_status = false)
    (hpre : env.preSendCancels = false) (hrec : env.recipients ≠ [])
    (hbuild : env.buildPayload = .ok p) (hpost : env.postToEsp = .ok resp)
    (hparse : env.parseStatus = .ok [])
    (hobs : run_post_send env.postSendObservers = none) :
    raise_for_recipient_status false ⟨some resp, some []⟩ =
      some .recipientsRefused ∧
    (sendOne b env).result = .error .recipientsRefused := by
  have hre := recipients_isEmpty_false hrec
  constructor
  · rfl
  · simp [sendOne, hpre, hre, hbuild, hpost, hparse, hobs,
          raise_for_recipient_status, hign, AnymailStatus.statusSet]

/-- Witness for C10 at a concrete send whose parser returns no
recipients. -/
theorem empty_status_raises_refused_witness :
    raise_for_recipient_status false ⟨some 7, some []⟩ =
      some .recipientsRefused ∧
    (sendOne {} envEmptyStatus).result = .error .recipientsRefused :=
  empty_status_raises_refused {} envEmptyStatus 0 7
    rfl rfl (by decide) rfl rfl rfl rfl

/-- C2: `send_messages` calls `close()` exactly once iff the `open()`
call it made returned `True` (and `open()` is called iff the batch is
nonempty); this holds on every exit path — in particular the close count
is the same when the loop result is a propagated exception. -/
theorem send_messages_close_iff_created (b : Backend) (envs : List SendEnv) :
    ((send_messages b envs).closeCalls =
      if (send_messages b envs).openCalled && b.openCreatesSession
      then 1 else 0) ∧
    ((send_messages b envs).openCalled = !envs.isEmpty) ∧
    (∀ e, (send_messages b envs).result = .error e →
      (send_messages b envs).closeCalls =
        if b.openCreatesSession then 1 else 0) := by
  cases envs with
  | nil => cases hc : b.openCreatesSession <;> simp [send_messages, hc]
  | cons env rest =>
    cases hc : b.openCreatesSession <;>
      simp [send_messages, hc, List.isEmpty]

/-- Witness for C2: a newly created session with a batch whose only
message raises a non-Anymail error; close is still called exactly once
before the exception propagates. -/
theorem send_messages_close_iff_created_witness :
    (send_messages { openCreatesSession := true } [envNonAnymailFails]).closeCalls = 1 := by
  have h := send_messages_close_iff_created
    { openCreatesSession := true } [envNonAnymailFails]
  exact h.2.2 (.nonAnymailError 3) (by decide)

/-- C3: in fail-silent mode, an exception raised by `_send` for a message
is suppressed (the message counts as not sent and the loop continues with
the remaining messages at the same count) iff it descends from
`AnymailError`; a non-Anymail exception propagates out of the loop. -/
theorem fail_silently_suppresses_iff_anymail (b : Backend) (env : SendEnv)
    (rest : List SendEnv) (num_sent : Nat) (e : Exc)
    (hfs : b.fail_silently = true)
    (he : (sendOne b env).result = .error e) :
    sendLoop b (env :: rest) num_sent =
      if e.isAnymailError then sendLoop b rest num_sent else .error e := by
  rw [sendLoop, he]
  cases ha : e.isAnymailError <;> simp [hfs, ha]

/-- Witness for C3: with fail-silent on, an `AnymailError` from the first
message is suppressed and the second message still sends (count 1), while
a non-Anymail error propagates. -/
theorem fail_silently_suppresses_iff_anymail_witness :
    sendLoop { fail_silently := true } [envBuildFails, envSentOk] 0 = .ok 1 ∧
    sendLoop { fail_silently := true } [envNonAnymailFails, envSentOk] 0 =
      .error (.nonAnymailError 3) := by
  constructor
  · rw [fail_silently_suppresses_iff_anymail
      { fail_silently := true } envBuildFails [envSentOk] 0
      (.unsupportedFeature "Example does not support tags") rfl (by decide)]
    decide
  · rw [fail_silently_suppresses_iff_anymail
      { fail_silently := true } envNonAnymailFails [envSentOk] 0
      (.nonAnymailError 3) rfl (by decide)]
    decide

/-- Helper: lookup in an appended association list prefers the left
part. -/
theorem dictGet_append (k : String) (l1 l2 : List (String × PyValue)) :
    dictGet k (l1 ++ l2) =
      if (dictGet k l1).isSome then dictGet k l1 else dictGet k l2 := by
  induction l1 with
  | nil => simp [dictGet]
  | cons p t ih => by_cases h : p.1 = k <;> simp [dictGet, h, ih]

/-- Helper: a key has a binding iff some pair carries it. -/
theorem dictGet_isSome_any (k : String) (ds : List (String × PyValue)) :
    (dictGet k ds).isSome = ds.any (fun p => p.1 = k) := by
  induction ds with
  | nil => simp [dictGet]
  | cons p t ih => by_cases h : p.1 = k <;> simp [dictGet, h, ih]

/-- Helper: lookup in the overridden-base part of `dictUpdate`. -/
theorem dictGet_map_override (k : String) (ds vs : List (String × PyValue)) :
    dictGet k (ds.map (fun p =>
      match dictGet p.1 vs with
      | some v => (p.1, v)
      | none => p)) =
      if (dictGet k ds).isSome then
        if (dictGet k vs).isSome then dictGet k vs else dictGet k ds
      else none := by
  induction ds with
  | nil => simp [dictGet]
  | cons p t ih =>
    rw [List.map_cons]
    by_cases h : p.1 = k
    · cases hv : dictGet p.1 vs with
      | some v =>
        rw [h] at hv
        simp [dictGet, h, hv]
      | none =>
        rw [h] at hv
        simp [dictGet, h, hv]
    · cases hv : dictGet p.1 vs with
      | some v => simp [dictGet, h, ih]
      | none => simp [dictGet, h, ih]

/-- Helper: lookup in the appended new-keys part of `dictUpdate`. -/
theorem dictGet_filter_new (k : String) (ds vs : List (String × PyValue)) :
    dictGet k (vs.filter (fun q => !(ds.any (fun p => p.1 = q.1)))) =
      if (dictGet k ds).isSome then none else dictGet k vs := by
  induction vs with
  | nil => simp [dictGet]
  | cons q t ih =>
    rw [List.filter_cons]
    by_cases h : q.1 = k
    · rw [h, ← dictGet_isSome_any]
      cases hs : (dictGet k ds).isSome <;> simp [dictGet, h, hs, ih]
    · cases hc : ds.any (fun p => p.1 = q.1) <;> simp [dictGet, h, hc, ih]

/-- C6: for a *merge* (`combine`) rule with both sides present, sequences
concatenate with caller elements appended after default elements, and
mappings take the key union with caller values winning on collisions
(lookup in the merged mapping is the caller binding when present, else
the default binding); when only one side is present that side is the
result unchanged. -/
theorem merge_rule_spec (k : String) :
    (∀ ds vs : List PyValue,
      combine (some (.list ds)) (some (.list vs)) =
        some (.list (ds ++ vs))) ∧
    (∀ ds vs : List (String × PyValue),
      combine (some (.dict ds)) (some (.dict vs)) =
        some (.dict (dictUpdate ds vs)) ∧
      dictGet k (dictUpdate ds vs) =
        if (dictGet k vs).isSome then dictGet k vs else dictGet k ds) ∧
    (∀ v, combine none (some v) = some v) ∧
    (∀ d, combine (some d) none = some d) := by
  refine ⟨fun ds vs => rfl, fun ds vs => ⟨rfl, ?_⟩, fun v => rfl,
    fun d => rfl⟩
  simp only [dictUpdate]
  rw [dictGet_append, dictGet_map_override, dictGet_filter_new]
  cases hd : dictGet k ds <;> cases hv : dictGet k vs <;> simp [hd, hv]

end Anymail
